import Mathlib

/-!
A shallow embedding of `src/analysis/analyze_tactics.py`, the analyzer that
aggregates per-mob tactics statistics into a CSV summary with optional plots.

Modelling conventions:
* Python dicts whose keys come from a literal (the summary record) are embedded
  as ordered association lists `List (String × Value)`, preserving key order.
* Optional JSON fields are `Option` fields; `data.get(k, default)` becomes
  `Option.getD`.  Where the code distinguishes a JSON `null` from an absent key
  (the `or 0.0` coalescing on `successRate`, the `or` on `batchReport`, and
  `.get("trend", "")`), a nested `Option` keeps both levels.
* Python floats are embedded as exact rationals `ℚ`; `round(x, 4)` is exact
  decimal round-half-to-even at 4 places.
* `datetime.fromtimestamp(ms / 1000.0, tz=timezone.utc).isoformat()` is
  embedded bit-exactly: the division is the correctly rounded IEEE-754
  binary64 quotient (represented as an exact dyadic rational), the microsecond
  component follows CPython (`modf`, a double multiply by 1e6, then
  round-half-to-even with carry adjustment), and the result is rendered as a
  proleptic-Gregorian ISO-8601 UTC string; out-of-range inputs (where the
  library raises and the code catches) yield the empty string.
* The effectful `main` is a pure function of the command-line arguments and an
  environment record holding the outcome of every external interaction,
  returning the run outcome together with the list of I/O actions performed.
-/

/-- Round-half-to-even of a rational to an integer (Python `round` semantics,
taken at exact rational values). -/
def roundHalfEven (q : ℚ) : ℤ :=
  let f := ⌊q⌋
  if q - (f : ℚ) < 1/2 then f
  else if 1/2 < q - (f : ℚ) then f + 1
  else if f % 2 = 0 then f else f + 1

/-- Embedding of Python `round(x, 4)`: round-half-to-even at 4 decimal places. -/
def round4 (q : ℚ) : ℚ := (roundHalfEven (q * 10000) : ℚ) / 10000

/-- Convert a day count into calendar parts, given the era (400-year cycle)
index and the day-of-era.  Returns (year, month, day) in the proleptic
Gregorian calendar, counting day 0 of era 0 as 0000-03-01. -/
def civilParts (era doe : Nat) : Nat × Nat × Nat :=
  let century := (4 * doe + 3) / 146097
  let doc := doe - 36524 * century
  let yic := (4 * doc + 3) / 1461
  let yoe := 100 * century + yic
  let doy := doc - (365 * yic + yic / 4)
  let mp := (5 * doy + 2) / 153
  let d := doy - (153 * mp + 2) / 5 + 1
  let m := if mp < 10 then mp + 3 else mp - 9
  (if m ≤ 2 then era * 400 + yoe + 1 else era * 400 + yoe, m, d)

/-- Days since 0000-03-01 to (year, month, day), proleptic Gregorian. -/
def civilFromDays (z : Nat) : Nat × Nat × Nat :=
  civilParts (z / 146097) (z % 146097)

/-- Inverse of `civilFromDays`: (year, month, day) to days since 0000-03-01. -/
def daysFromCivil (y m d : Nat) : Nat :=
  let y' := if m ≤ 2 then y - 1 else y
  let era := y' / 400
  let yoe := y' % 400
  let mp := if m > 2 then m - 3 else m + 9
  let doy := (153 * mp + 2) / 5 + d - 1
  era * 146097 + yoe * 365 + yoe / 4 - yoe / 100 + doy

/-- Epoch millisecond value of 0001-01-01T00:00:00 UTC, the lower bound of the
`datetime` range. -/
def epochMsMin : Int := -62135596800000

/-- Decimal digit character (codepoint 48 + digit). -/
def dchar (n : Nat) : Char := Char.ofNat (48 + n % 10)

/-- Two-digit zero-padded decimal rendering. -/
def pad2 (n : Nat) : List Char := [dchar (n / 10 % 10), dchar (n % 10)]

/-- Four-digit zero-padded decimal rendering. -/
def pad4 (n : Nat) : List Char :=
  [dchar (n / 1000 % 10), dchar (n / 100 % 10), dchar (n / 10 % 10), dchar (n % 10)]

/-- Six-digit zero-padded decimal rendering. -/
def pad6 (n : Nat) : List Char :=
  [dchar (n / 100000 % 10), dchar (n / 10000 % 10), dchar (n / 1000 % 10),
   dchar (n / 100 % 10), dchar (n / 10 % 10), dchar (n % 10)]

/-- The UTC offset suffix `isoformat` appends under `timezone.utc`. -/
def tzChars : List Char := ['+', '0', '0', ':', '0', '0']

/-- Binary length of a natural number, fuel-bounded: exact below 2 ^ 1100 and
saturating at 1100 above it (beyond the double-overflow guard either way). -/
def blenAux : Nat → Nat → Nat
  | 0, _ => 0
  | fuel + 1, n => if n = 0 then 0 else blenAux fuel (n / 2) + 1

/-- Binary length wrapper with fixed fuel. -/
def blen (n : Nat) : Nat := blenAux 1100 n

/-- Round the fraction num / den (den nonzero) to the nearest integer,
ties to even, using floor division (correct for negative numerators). -/
def rheFracI (num : Int) (den : Nat) : Int :=
  let f := Int.fdiv num den
  let r2 := 2 * (num - f * (den : Int))
  if r2 < (den : Int) then f
  else if (den : Int) < r2 then f + 1
  else if f % 2 = 0 then f else f + 1

/-- Round the exact fraction num / den (den nonzero) to the nearest IEEE-754
binary64 value, ties to even, returned as a pair (m, k) meaning m * 2 ^ k with
|m| in [2 ^ 52, 2 ^ 53) (or (0, 0)); `none` on double overflow.  Exact on the
normal range, which covers every value this program's conversion produces. -/
def flOfFrac (num : Int) (den : Nat) : Option (Int × Int) :=
  if num = 0 then some (0, 0)
  else
    let n := num.natAbs
    if 1060 ≤ blen n then none
    else
      let e0 : Int := (blen n : Int) - (blen den : Int)
      let le2 : Int → Bool := fun e =>
        if 0 ≤ e then den * 2 ^ e.toNat ≤ n else decide (den ≤ n * 2 ^ (-e).toNat)
      let e1 : Int := if le2 e0 then e0 else e0 - 1
      let m0 : Int :=
        if e1 ≤ 52 then rheFracI (num * 2 ^ (52 - e1).toNat) den
        else rheFracI num (den * 2 ^ (e1 - 52).toNat)
      let p : Int × Int := if m0.natAbs = 2 ^ 53 then (Int.tdiv m0 2, e1 + 1) else (m0, e1)
      if 1024 ≤ p.2 then none else some (p.1, p.2 - 52)

/-- The (seconds, microseconds) pair `datetime.fromtimestamp(ms / 1000.0)`
computes: the correctly rounded double ms / 1000.0, split by `modf`
(truncation toward zero), fraction times 1e6 as a double multiply, rounded
half-to-even to an integer, then the carry adjustments; `none` is the
`OverflowError` path of the division. -/
def pySecUs (ms : Int) : Option (Int × Int) :=
  match flOfFrac ms 1000 with
  | none => none
  | some (tm, tk) =>
    let ti : Int := if 0 ≤ tk then tm * 2 ^ tk.toNat else Int.tdiv tm (2 ^ (-tk).toNat)
    let fm : Int := if 0 ≤ tk then 0 else tm - ti * 2 ^ (-tk).toNat
    let us : Int :=
      if fm = 0 then 0
      else
        match flOfFrac (fm * 1000000) (2 ^ (-tk).toNat) with
        | none => 0
        | some (um, uk) =>
          if 0 ≤ uk then um * 2 ^ uk.toNat else rheFracI um (2 ^ (-uk).toNat)
    if 1000000 ≤ us then some (ti + 1, us - 1000000)
    else if us < 0 then some (ti - 1, us + 1000000)
    else some (ti, us)

/-- ISO-8601 rendering of an in-range (seconds, microseconds) pair, as
`datetime.isoformat()` prints it under `timezone.utc`: the fractional part is
printed as 6 microsecond digits and omitted when zero. -/
def isoOfSecUs (sec us : Int) : String :=
  let t := (sec + 62135596800).toNat
  let sod := t % 86400
  let c := civilFromDays (t / 86400 + 306)
  String.mk
    (pad4 c.1 ++ '-' :: pad2 c.2.1 ++ '-' :: pad2 c.2.2 ++
     'T' :: pad2 (sod / 3600) ++ ':' :: pad2 (sod % 3600 / 60) ++
     ':' :: pad2 (sod % 60) ++
     (if us = 0 then tzChars else '.' :: (pad6 us.toNat ++ tzChars)))

/-- Embedding of `epoch_to_iso`: `datetime.fromtimestamp(ms / 1000.0,
tz=timezone.utc).isoformat()` through the double-precision value, and `""`
where the library raises (out of the 0001..9999 range, or overflow) and the
`except` clause catches. -/
def epoch_to_iso (ms : Int) : String :=
  match pySecUs ms with
  | none => ""
  | some (sec, us) =>
    if -62135596800 ≤ sec ∧ sec ≤ 253402300799 then isoOfSecUs sec us else ""

/-- Parse one decimal digit by its codepoint. -/
def pdigit (c : Char) : Option Nat :=
  if 48 ≤ c.toNat ∧ c.toNat ≤ 57 then some (c.toNat - 48) else none

/-- Parse two decimal digits. -/
def parse2 : List Char → Option (Nat × List Char)
  | c1 :: c2 :: rest =>
    match pdigit c1, pdigit c2 with
    | some a, some b => some (10 * a + b, rest)
    | _, _ => none
  | _ => none

/-- Parse four decimal digits. -/
def parse4 : List Char → Option (Nat × List Char)
  | c1 :: c2 :: c3 :: c4 :: rest =>
    match pdigit c1, pdigit c2, pdigit c3, pdigit c4 with
    | some a, some b, some c, some d => some (1000 * a + 100 * b + 10 * c + d, rest)
    | _, _, _, _ => none
  | _ => none

/-- Parse six decimal digits. -/
def parse6 : List Char → Option (Nat × List Char)
  | c1 :: c2 :: c3 :: c4 :: c5 :: c6 :: rest =>
    match pdigit c1, pdigit c2, pdigit c3, pdigit c4, pdigit c5, pdigit c6 with
    | some a, some b, some c, some d, some e, some f =>
      some (100000 * a + 10000 * b + 1000 * c + 100 * d + 10 * e + f, rest)
    | _, _, _, _, _, _ => none
  | _ => none

/-- Consume one expected character. -/
def expectChar (c : Char) : List Char → Option (List Char)
  | x :: rest => if x = c then some rest else none
  | [] => none

/-- Parse an optional `.ffffff` microsecond suffix (0 when absent). -/
def parseFrac : List Char → Option (Nat × List Char)
  | c :: rest => if c = '.' then parse6 rest else some (0, c :: rest)
  | [] => some (0, [])

/-- Recognize the `+00:00` UTC suffix. -/
def parseTZ : List Char → Bool
  | ['+', '0', '0', ':', '0', '0'] => true
  | _ => false

/-- Reparse an ISO-8601 UTC string produced by `isoOfSecUs` back to its
epoch-millisecond value (sub-millisecond digits are truncated). -/
def isoToEpochMs (s : String) : Option Int :=
  (parse4 s.data).bind fun py =>
  (expectChar '-' py.2).bind fun r1 =>
  (parse2 r1).bind fun pmo =>
  (expectChar '-' pmo.2).bind fun r2 =>
  (parse2 r2).bind fun pd =>
  (expectChar 'T' pd.2).bind fun r3 =>
  (parse2 r3).bind fun ph =>
  (expectChar ':' ph.2).bind fun r4 =>
  (parse2 r4).bind fun pmi =>
  (expectChar ':' pmi.2).bind fun r5 =>
  (parse2 r5).bind fun ps =>
  (parseFrac ps.2).bind fun pus =>
  if parseTZ pus.2 then
    some (((daysFromCivil py.1 pmo.1 pd.1 - 306) * 86400000 +
           ph.1 * 3600000 + pmi.1 * 60000 + ps.1 * 1000 + pus.1 / 1000 : Nat) + epochMsMin)
  else none

/-- A JSON-ish value as it lands in a summary-record dict cell. -/
inductive Value where
  | vnone : Value
  | str : String → Value
  | int : Int → Value
  | rat : ℚ → Value
deriving DecidableEq

/-- One entry of the `tactics` array.  `successRate` keeps two `Option` levels:
outer absence of the key, inner JSON `null` (the code coalesces both, and an
exact 0.0, to 0.0 via `top.get("successRate", 0.0) or 0.0`). -/
structure TacticEntry where
  action : Option String
  avgReward : Option ℚ
  successRate : Option (Option ℚ)
  count : Option Int
deriving DecidableEq

/-- The nested `batchReport` record.  `trend` keeps two `Option` levels: outer
absence of the key (defaulted to `""` by `.get("trend", "")`), inner JSON
`null` (which `.get` returns as-is). -/
structure BatchReport where
  trend : Option (Option String)
deriving DecidableEq

/-- A Raw Tactics Document.  `batchReport` keeps two `Option` levels: outer
absence of the key, inner JSON `null` (both collapsed by
`data.get("batchReport", {}) or {}`). -/
structure RawDoc where
  mobType : Option String
  submissions : Option Int
  syncedAt : Option Int
  lastUpdate : Option Int
  tactics : Option (List TacticEntry)
  batchReport : Option (Option BatchReport)
deriving DecidableEq

/-- Embedding of `data.get("tactics", [])`. -/
def tacticsOf (d : RawDoc) : List TacticEntry := d.tactics.getD []

/-- Embedding of `(data.get("batchReport", {}) or {}).get("trend", "")`. -/
def trendVal (d : RawDoc) : Value :=
  match d.batchReport with
  | some (some br) =>
    match br.trend with
    | none => Value.str ""
    | some none => Value.vnone
    | some (some s) => Value.str s
  | _ => Value.str ""

/-- Embedding of `top.get("successRate", 0.0) or 0.0`. -/
def srOrZero (t : TacticEntry) : ℚ :=
  match t.successRate with
  | some (some q) => q
  | _ => 0

/-- Embedding of `epoch_to_iso(data.get(k, 0)) if data.get(k) else ""`:
a missing key or a zero (falsy) value short-circuits to `""`. -/
def tsField (x : Option Int) : String :=
  match x with
  | some n => if n ≠ 0 then epoch_to_iso n else ""
  | none => ""

/-- Embedding of `summarize_mob`: the summary record as an ordered association
list, mirroring the dict literal key order in the source. -/
def summarize_mob (d : RawDoc) : List (String × Value) :=
  let top := (tacticsOf d).head?
  [("mobType", Value.str (d.mobType.getD "")),
   ("submissions", Value.int (d.submissions.getD 0)),
   ("syncedAt", Value.str (tsField d.syncedAt)),
   ("lastUpdate", Value.str (tsField d.lastUpdate)),
   ("topAction",
     match top with
     | some t => (match t.action with | some a => Value.str a | none => Value.vnone)
     | none => Value.str ""),
   ("topAvgReward",
     match top with
     | some t => Value.rat (round4 (t.avgReward.getD 0))
     | none => Value.rat 0),
   ("topSuccessRate",
     match top with
     | some t => Value.rat (round4 (srOrZero t))
     | none => Value.rat 0),
   ("topCount",
     match top with
     | some t => Value.int (t.count.getD 0)
     | none => Value.int 0),
   ("trend", trendVal d)]

/-- Look a field up in a summary record. -/
def fieldOf (row : List (String × Value)) (k : String) : Option Value :=
  (row.find? (fun p => p.1 == k)).map (fun p => p.2)

/-- Result of the CSV writer: either a written file (path, header, data rows in
header order) or the printed diagnostic. -/
inductive CsvOutcome where
  | wrote : String → List String → List (List Value) → CsvOutcome
  | diagnostic : String → CsvOutcome
deriving DecidableEq

/-- Cell lookup used when serializing a row under the header. -/
def cellOf (r : List (String × Value)) (k : String) : Value :=
  ((r.find? (fun p => p.1 == k)).map (fun p => p.2)).getD Value.vnone

/-- Fixed output file name (the code writes next to the script; the directory
part is irrelevant to every claim). -/
def csvFileName : String := "analysis_summary.csv"

/-- Embedding of `write_csv`: an empty row list prints a diagnostic and writes
nothing; otherwise the header is the first row's keys and each row is
serialized in header order. -/
def write_csv (rows : List (List (String × Value))) (out : String) : CsvOutcome :=
  match rows with
  | [] => CsvOutcome.diagnostic "No data to write."
  | r0 :: _ =>
    let fieldnames := r0.map Prod.fst
    CsvOutcome.wrote out fieldnames (rows.map (fun r => fieldnames.map (cellOf r)))

/-- Header of a written CSV, if one was written. -/
def csvHeader : CsvOutcome → Option (List String)
  | CsvOutcome.wrote _ h _ => some h
  | CsvOutcome.diagnostic _ => none

/-- Result of the plot generator: the no-op diagnostic when matplotlib is
absent, or the created directory flag plus the image files written. -/
inductive PlotResult where
  | unavailable : String → PlotResult
  | generated : Bool → List String → PlotResult
deriving DecidableEq

/-- Fixed plot output directory name. -/
def plotsDirName : String := "plots"

/-- The per-document loop of `generate_plots`: documents with an empty tactics
list are skipped via `continue`, the rest save one PNG named after the mob. -/
def plotLoop (outDir : String) : List RawDoc → List String
  | [] => []
  | e :: rest =>
    if tacticsOf e = [] then plotLoop outDir rest
    else (outDir ++ "/" ++ e.mobType.getD "unknown" ++ "_reward_vs_success.png") ::
      plotLoop outDir rest

/-- Embedding of `generate_plots`. -/
def generate_plots (allData : List RawDoc) (outDir : String) (pltAvailable : Bool) :
    PlotResult :=
  if pltAvailable then PlotResult.generated true (plotLoop outDir allData)
  else PlotResult.unavailable
    "matplotlib not available. Install with pip install matplotlib or omit --plots."

/-- One argparse option declaration. -/
structure ArgSpec where
  name : String
  required : Bool
  choices : Option (List String)
  isFlag : Bool
deriving DecidableEq

/-- The five options `parse_args` declares, in source order. -/
def parse_args_options : List ArgSpec :=
  [⟨"--source", true, some ["github", "local"], false⟩,
   ⟨"--owner", false, none, false⟩,
   ⟨"--repo", false, none, false⟩,
   ⟨"--path", false, none, false⟩,
   ⟨"--plots", false, none, true⟩]

/-- The `--source` option declaration. -/
def sourceOption : ArgSpec := ⟨"--source", true, some ["github", "local"], false⟩

/-- Parsed command-line arguments as `main` sees them. -/
structure Args where
  source : String
  owner : Option String
  repo : Option String
  path : Option String
  plots : Bool

/-- Embedding of `str.endswith(suffix)` (computable by suffix comparison of
the character lists). -/
def endsWithM (s suf : String) : Bool := List.isSuffixOf suf.data s.data

/-- Python truthiness of an optional string (both `None` and `""` are falsy). -/
def truthyS : Option String → Bool
  | none => false
  | some s => !s.isEmpty

/-- One entry of the GitHub directory listing. -/
structure GhItem where
  itemType : Option String
  name : Option String
  path : String

/-- Outcomes of every external interaction `main` can perform, making the
effectful code a pure function. -/
structure Env where
  dirListing : Except String (List GhItem)
  fetchFile : String → Except String RawDoc
  localDirExists : Bool
  localListing : List String
  readFile : String → Except String RawDoc
  pltAvailable : Bool

/-- An I/O action performed by the run, in order. -/
inductive IOAct where
  | listRemote : IOAct
  | fetchRemote : String → IOAct
  | checkLocalDir : String → IOAct
  | readLocal : String → IOAct
  | writeCsv : String → IOAct
deriving DecidableEq

/-- Final state of a run: a fatal usage error (`raise SystemExit(msg)` before
any I/O), a fatal error after I/O began, or normal completion. -/
inductive Outcome where
  | usageError : String → Outcome
  | fatalError : String → Outcome
  | finished : List (List (String × Value)) → List String → CsvOutcome →
      Option PlotResult → Outcome

/-- A run outcome together with the I/O actions it performed. -/
structure RunResult where
  outcome : Outcome
  acts : List IOAct

/-- Process exit code: `SystemExit("msg")` and an uncaught exception both exit
with status 1; normal completion exits 0. -/
def exitCode (r : RunResult) : Nat :=
  match r.outcome with
  | Outcome.finished _ _ _ _ => 0
  | _ => 1

/-- The per-item fetch/read loop shared by both strategies: a success is
appended to the loaded list, a failure is logged and skipped. -/
def loadLoop (msgPre : String) : List (String × Except String RawDoc) →
    List RawDoc × List String
  | [] => ([], [])
  | (_, Except.ok d) :: rest =>
    let r := loadLoop msgPre rest
    (d :: r.1, r.2)
  | (n, Except.error e) :: rest =>
    let r := loadLoop msgPre rest
    (r.1, (msgPre ++ n ++ ": " ++ e) :: r.2)

/-- Whether a per-item result succeeded. -/
def isOkE (r : Except String RawDoc) : Bool :=
  match r with
  | Except.ok _ => true
  | Except.error _ => false

/-- Embedding of `main`: argument checks, then the chosen loader, then the CSV
write and optional plot generation. -/
def main_model (args : Args) (env : Env) : RunResult :=
  if args.source = "github" then
    if truthyS args.owner && truthyS args.repo then
      match env.dirListing with
      | Except.error e =>
        ⟨Outcome.fatalError ("Failed to list GitHub directory: " ++ e), [IOAct.listRemote]⟩
      | Except.ok items =>
        let jsonPaths := (items.filter (fun i =>
          (i.itemType == some "file") && endsWithM (i.name.getD "") "-tactics.json")).map
          (fun i => i.path)
        let loaded := loadLoop "Failed to fetch " (jsonPaths.map (fun p => (p, env.fetchFile p)))
        let rows := loaded.1.map summarize_mob
        ⟨Outcome.finished rows loaded.2 (write_csv rows csvFileName)
          (if args.plots then some (generate_plots loaded.1 plotsDirName env.pltAvailable)
           else none),
         IOAct.listRemote :: jsonPaths.map IOAct.fetchRemote ++ [IOAct.writeCsv csvFileName]⟩
    else ⟨Outcome.usageError "--owner and --repo are required for source=github", []⟩
  else
    if truthyS args.path then
      if env.localDirExists then
        let files := (env.localListing.filter (fun f => endsWithM f "-tactics.json")).map
          (fun f => args.path.getD "" ++ "/" ++ f)
        let loaded := loadLoop "Failed to read " (files.map (fun p => (p, env.readFile p)))
        let rows := loaded.1.map summarize_mob
        ⟨Outcome.finished rows loaded.2 (write_csv rows csvFileName)
          (if args.plots then some (generate_plots loaded.1 plotsDirName env.pltAvailable)
           else none),
         IOAct.checkLocalDir (args.path.getD "") :: files.map IOAct.readLocal ++
           [IOAct.writeCsv csvFileName]⟩
      else
        ⟨Outcome.fatalError ("Directory not found: " ++ args.path.getD ""),
         [IOAct.checkLocalDir (args.path.getD "")]⟩
    else ⟨Outcome.usageError "--path is required for source=local", []⟩

/-- The example Raw Tactics Document from the spec (section 8). -/
def zombieDoc : RawDoc :=
  ⟨some "zombie", some 42, none, none,
   some [⟨some "charge", some (123456/100000), some (some (8765/10000)), some 10⟩], none⟩

/-- A document with every optional field absent (so its tactics list is empty). -/
def emptyDoc : RawDoc := ⟨none, none, none, none, none, none⟩

/-- Arguments for a local-source run over a directory named `data`. -/
def c6Args : Args := ⟨"local", none, none, some "data", false⟩

/-- Per-file read results: one malformed JSON file among four tactics files. -/
def c6Read (p : String) : Except String RawDoc :=
  if p = "data/bad-tactics.json" then
    Except.error "Expecting value: line 1 column 1 (char 0)"
  else Except.ok emptyDoc

/-- A local directory with 3 valid tactics files and 1 malformed one. -/
def c6Env : Env :=
  ⟨Except.error "offline", fun _ => Except.error "offline", true,
   ["a-tactics.json", "b-tactics.json", "c-tactics.json", "bad-tactics.json"],
   c6Read, false⟩

/-- An environment where every external interaction fails or is empty. -/
def failEnv : Env :=
  ⟨Except.error "HTTP 403", fun _ => Except.error "HTTP 403", false, [],
   fun _ => Except.error "unreadable", false⟩

/-- A local directory that exists but contains no tactics files. -/
def c8Env : Env :=
  ⟨Except.error "offline", fun _ => Except.error "offline", true, [],
   fun _ => Except.error "unreadable", false⟩

/-- Remote-source arguments with the owner flag missing. -/
def c7a : Args := ⟨"github", none, some "mca", none, false⟩

/-- Local-source arguments with the path flag missing. -/
def c7b : Args := ⟨"local", none, none, none, false⟩

/-- Complete remote-source arguments. -/
def c7c : Args := ⟨"github", some "owner", some "mca", none, false⟩

/-- Local-source arguments pointing at a non-existent directory. -/
def c7d : Args := ⟨"local", none, none, some "missing", false⟩

/-- The summary rows of a completed run, if it completed. -/
def finRows : Outcome → Option (List (List (String × Value)))
  | Outcome.finished rows _ _ _ => some rows
  | _ => none

/-- The skip log of a completed run, if it completed. -/
def finSkips : Outcome → Option (List String)
  | Outcome.finished _ skips _ _ => some skips
  | _ => none

/-! ### Calendar helper lemmas -/

theorem civil_parts_inverse (era doe : Nat) (hdoe : doe ≤ 146096) :
    daysFromCivil (civilParts era doe).1 (civilParts era doe).2.1 (civilParts era doe).2.2 =
      era * 146097 + doe := by
  simp only [civilParts, daysFromCivil]
  generalize hc : (4 * doe + 3) / 146097 = c
  have hc1 : 36524 * c ≤ doe ∧ doe - 36524 * c ≤ 36524 ∧ c ≤ 3 := by omega
  generalize hdoc : doe - 36524 * c = doc
  have hdoc1 : doc ≤ 36524 := by omega
  generalize hyic : (4 * doc + 3) / 1461 = yic
  have hyic1 : 365 * yic + yic / 4 ≤ doc ∧ doc - (365 * yic + yic / 4) ≤ 365 ∧ yic ≤ 99 := by
    omega
  generalize hq : yic / 4 = q
  have hq1 : 4 * q ≤ yic ∧ yic < 4 * q + 4 := by omega
  generalize hdoy : doc - (365 * yic + q) = doy
  have hdoy1 : doy ≤ 365 := by omega
  generalize hmp : (5 * doy + 2) / 153 = mp
  have hmp1 : (153 * mp + 2) / 5 ≤ doy ∧ doy - (153 * mp + 2) / 5 ≤ 30 ∧ mp ≤ 11 := by omega
  generalize hg : (153 * mp + 2) / 5 = g
  have hg1 : 5 * g ≤ 153 * mp + 2 ∧ 153 * mp + 2 < 5 * g + 5 := by omega
  have hyoe : 100 * c + yic ≤ 399 := by omega
  rcases lt_or_le mp 10 with hmlt | hmge
  · simp only [if_pos hmlt, if_neg (by omega : ¬ mp + 3 ≤ 2), if_pos (by omega : mp + 3 > 2)]
    rw [Nat.add_sub_cancel, hg]
    generalize hY : (era * 400 + (100 * c + yic)) / 400 = Y
    generalize hR : (era * 400 + (100 * c + yic)) % 400 = R
    have hYR : Y = era ∧ R = 100 * c + yic := by omega
    generalize hr4 : R / 4 = r4
    have hr41 : 4 * r4 ≤ R ∧ R < 4 * r4 + 4 := by omega
    generalize hr100 : R / 100 = r100
    have hr1001 : 100 * r100 ≤ R ∧ R < 100 * r100 + 100 := by omega
    have hr4v : r4 = 25 * c + q := by omega
    have hr100v : r100 = c := by omega
    have hday : g + (doy - g + 1) - 1 = doy := by omega
    rw [hday]
    omega
  · simp only [if_neg (by omega : ¬ mp < 10), if_pos (by omega : mp - 9 ≤ 2),
      if_neg (by omega : ¬ mp - 9 > 2)]
    rw [Nat.add_sub_cancel, Nat.sub_add_cancel (by omega : 9 ≤ mp), hg]
    generalize hY : (era * 400 + (100 * c + yic)) / 400 = Y
    generalize hR : (era * 400 + (100 * c + yic)) % 400 = R
    have hYR : Y = era ∧ R = 100 * c + yic := by omega
    generalize hr4 : R / 4 = r4
    have hr41 : 4 * r4 ≤ R ∧ R < 4 * r4 + 4 := by omega
    generalize hr100 : R / 100 = r100
    have hr1001 : 100 * r100 ≤ R ∧ R < 100 * r100 + 100 := by omega
    have hr4v : r4 = 25 * c + q := by omega
    have hr100v : r100 = c := by omega
    have hday : g + (doy - g + 1) - 1 = doy := by omega
    rw [hday]
    omega

theorem civil_inverse (z : Nat) :
    daysFromCivil (civilFromDays z).1 (civilFromDays z).2.1 (civilFromDays z).2.2 = z := by
  have h := civil_parts_inverse (z / 146097) (z % 146097) (by omega)
  have h2 : z / 146097 * 146097 + z % 146097 = z := by omega
  simp only [civilFromDays]
  exact h.trans h2

theorem civil_parts_bounds (era doe : Nat) (hdoe : doe ≤ 146096)
    (hz : era * 146097 + doe ≤ 3652364) :
    (civilParts era doe).1 ≤ 9999 ∧
    1 ≤ (civilParts era doe).2.1 ∧ (civilParts era doe).2.1 ≤ 12 ∧
    1 ≤ (civilParts era doe).2.2 ∧ (civilParts era doe).2.2 ≤ 31 := by
  simp only [civilParts]
  generalize hc : (4 * doe + 3) / 146097 = c
  have hc1 : 36524 * c ≤ doe ∧ doe - 36524 * c ≤ 36524 ∧ c ≤ 3 := by omega
  generalize hdoc : doe - 36524 * c = doc
  have hdoc1 : doc ≤ 36524 := by omega
  generalize hyic : (4 * doc + 3) / 1461 = yic
  have hyic1 : 365 * yic + yic / 4 ≤ doc ∧ doc - (365 * yic + yic / 4) ≤ 365 ∧ yic ≤ 99 := by
    omega
  generalize hq : yic / 4 = q
  have hq1 : 4 * q ≤ yic ∧ yic < 4 * q + 4 := by omega
  generalize hdoy : doc - (365 * yic + q) = doy
  have hdoy1 : doy ≤ 365 := by omega
  generalize hmp : (5 * doy + 2) / 153 = mp
  have hmp1 : (153 * mp + 2) / 5 ≤ doy ∧ doy - (153 * mp + 2) / 5 ≤ 30 ∧ mp ≤ 11 := by omega
  generalize hg : (153 * mp + 2) / 5 = g
  have hg1 : 5 * g ≤ 153 * mp + 2 ∧ 153 * mp + 2 < 5 * g + 5 := by omega
  have hyoe : 100 * c + yic ≤ 399 := by omega
  have hera : era ≤ 24 := by omega
  rcases lt_or_le mp 10 with hmlt | hmge
  · simp only [if_pos hmlt, if_neg (by omega : ¬ mp + 3 ≤ 2)]
    omega
  · simp only [if_neg (by omega : ¬ mp < 10), if_pos (by omega : mp - 9 ≤ 2)]
    omega

theorem civil_bounds (z : Nat) (hz : z ≤ 3652364) :
    (civilFromDays z).1 ≤ 9999 ∧
    1 ≤ (civilFromDays z).2.1 ∧ (civilFromDays z).2.1 ≤ 12 ∧
    1 ≤ (civilFromDays z).2.2 ∧ (civilFromDays z).2.2 ≤ 31 := by
  have h := civil_parts_bounds (z / 146097) (z % 146097) (by omega) (by omega)
  simpa only [civilFromDays] using h

/-! ### Digit and parser helper lemmas -/

theorem pdigit_dchar (k : Nat) (h : k < 10) : pdigit (dchar k) = some k := by
  interval_cases k <;> decide

theorem parse2_pad2 (n : Nat) (rest : List Char) :
    parse2 (pad2 n ++ rest) = some (n % 100, rest) := by
  simp only [pad2, List.cons_append, List.nil_append, parse2,
    pdigit_dchar _ (show n / 10 % 10 < 10 by omega),
    pdigit_dchar _ (show n % 10 < 10 by omega)]
  have : 10 * (n / 10 % 10) + n % 10 = n % 100 := by omega
  rw [this]

theorem parse4_pad4 (n : Nat) (rest : List Char) :
    parse4 (pad4 n ++ rest) = some (n % 10000, rest) := by
  simp only [pad4, List.cons_append, List.nil_append, parse4,
    pdigit_dchar _ (show n / 1000 % 10 < 10 by omega),
    pdigit_dchar _ (show n / 100 % 10 < 10 by omega),
    pdigit_dchar _ (show n / 10 % 10 < 10 by omega),
    pdigit_dchar _ (show n % 10 < 10 by omega)]
  have : 1000 * (n / 1000 % 10) + 100 * (n / 100 % 10) + 10 * (n / 10 % 10) + n % 10 =
      n % 10000 := by omega
  rw [this]

theorem parse6_pad6 (n : Nat) (rest : List Char) :
    parse6 (pad6 n ++ rest) = some (n % 1000000, rest) := by
  simp only [pad6, List.cons_append, List.nil_append, parse6,
    pdigit_dchar _ (show n / 100000 % 10 < 10 by omega),
    pdigit_dchar _ (show n / 10000 % 10 < 10 by omega),
    pdigit_dchar _ (show n / 1000 % 10 < 10 by omega),
    pdigit_dchar _ (show n / 100 % 10 < 10 by omega),
    pdigit_dchar _ (show n / 10 % 10 < 10 by omega),
    pdigit_dchar _ (show n % 10 < 10 by omega)]
  have : 100000 * (n / 100000 % 10) + 10000 * (n / 10000 % 10) + 1000 * (n / 1000 % 10) +
      100 * (n / 100 % 10) + 10 * (n / 10 % 10) + n % 10 = n % 1000000 := by omega
  rw [this]

theorem expectChar_cons (c : Char) (rest : List Char) :
    expectChar c (c :: rest) = some rest := by
  simp [expectChar]

theorem stringData_mk (l : List Char) : (String.mk l).data = l := rfl

theorem someBind {α β : Type} (a : α) (f : α → Option β) : (Option.some a).bind f = f a := rfl

theorem sndPair {α β : Type} (a : α) (b : β) : (a, b).2 = b := rfl

theorem fstPair {α β : Type} (a : α) (b : β) : (a, b).1 = a := rfl

theorem parseFrac_dot (r : List Char) : parseFrac ('.' :: r) = parse6 r := by
  simp [parseFrac]

theorem parseFrac_plus (r : List Char) : parseFrac ('+' :: r) = some (0, '+' :: r) := by
  simp [parseFrac]

theorem parseTZ_tz : parseTZ ['+', '0', '0', ':', '0', '0'] = true := rfl

/-! ### Summary-record field lookups -/

theorem fields_mobType (d : RawDoc) :
    fieldOf (summarize_mob d) "mobType" = some (Value.str (d.mobType.getD "")) := by
  simp [fieldOf, summarize_mob]

theorem fields_submissions (d : RawDoc) :
    fieldOf (summarize_mob d) "submissions" = some (Value.int (d.submissions.getD 0)) := by
  simp [fieldOf, summarize_mob]

theorem fields_syncedAt (d : RawDoc) :
    fieldOf (summarize_mob d) "syncedAt" = some (Value.str (tsField d.syncedAt)) := by
  simp [fieldOf, summarize_mob]

theorem fields_lastUpdate (d : RawDoc) :
    fieldOf (summarize_mob d) "lastUpdate" = some (Value.str (tsField d.lastUpdate)) := by
  simp [fieldOf, summarize_mob]

theorem fields_topAction (d : RawDoc) (t : TacticEntry) (ts : List TacticEntry)
    (h : tacticsOf d = t :: ts) :
    fieldOf (summarize_mob d) "topAction" =
      some (match t.action with | some a => Value.str a | none => Value.vnone) := by
  simp [fieldOf, summarize_mob, h]

theorem fields_topAvgReward (d : RawDoc) (t : TacticEntry) (ts : List TacticEntry)
    (h : tacticsOf d = t :: ts) :
    fieldOf (summarize_mob d) "topAvgReward" =
      some (Value.rat (round4 (t.avgReward.getD 0))) := by
  simp [fieldOf, summarize_mob, h]

theorem fields_topSuccessRate (d : RawDoc) (t : TacticEntry) (ts : List TacticEntry)
    (h : tacticsOf d = t :: ts) :
    fieldOf (summarize_mob d) "topSuccessRate" =
      some (Value.rat (round4 (srOrZero t))) := by
  simp [fieldOf, summarize_mob, h]

theorem fields_topCount (d : RawDoc) (t : TacticEntry) (ts : List TacticEntry)
    (h : tacticsOf d = t :: ts) :
    fieldOf (summarize_mob d) "topCount" = some (Value.int (t.count.getD 0)) := by
  simp [fieldOf, summarize_mob, h]

theorem fields_top_empty (d : RawDoc) (h : tacticsOf d = []) :
    fieldOf (summarize_mob d) "topAction" = some (Value.str "") ∧
    fieldOf (summarize_mob d) "topAvgReward" = some (Value.rat 0) ∧
    fieldOf (summarize_mob d) "topSuccessRate" = some (Value.rat 0) ∧
    fieldOf (summarize_mob d) "topCount" = some (Value.int 0) := by
  refine ⟨?_, ?_, ?_, ?_⟩ <;> simp [fieldOf, summarize_mob, h]

theorem summarize_keys (d : RawDoc) :
    (summarize_mob d).map Prod.fst =
      ["mobType", "submissions", "syncedAt", "lastUpdate", "topAction", "topAvgReward",
       "topSuccessRate", "topCount", "trend"] := by
  simp [summarize_mob]

/-! ### Claim theorems -/

/-- C1: for every document with a non-empty tactics sequence, `summarize_mob`
takes topAction, topAvgReward, topSuccessRate and topCount from the first
tactic entry, rounding the two rates to 4 decimal places with
round-half-to-even; in particular the spec's zombie example summarizes to the
stated record. -/
theorem claim_C1 :
    (∀ (d : RawDoc) (t : TacticEntry) (ts : List TacticEntry) (a : String) (r sr : ℚ)
      (c : Int), tacticsOf d = t :: ts → t.action = some a → t.avgReward = some r →
      t.successRate = some (some sr) → t.count = some c →
      fieldOf (summarize_mob d) "topAction" = some (Value.str a) ∧
      fieldOf (summarize_mob d) "topAvgReward" = some (Value.rat (round4 r)) ∧
      fieldOf (summarize_mob d) "topSuccessRate" = some (Value.rat (round4 sr)) ∧
      fieldOf (summarize_mob d) "topCount" = some (Value.int c)) ∧
    summarize_mob zombieDoc =
      [("mobType", Value.str "zombie"), ("submissions", Value.int 42),
       ("syncedAt", Value.str ""), ("lastUpdate", Value.str ""),
       ("topAction", Value.str "charge"), ("topAvgReward", Value.rat (12346/10000)),
       ("topSuccessRate", Value.rat (8765/10000)), ("topCount", Value.int 10),
       ("trend", Value.str "")] := by
  constructor
  · intro d t ts a r sr c ht ha hr hsr hc
    refine ⟨?_, ?_, ?_, ?_⟩
    · rw [fields_topAction d t ts ht, ha]
    · rw [fields_topAvgReward d t ts ht, hr]
      rfl
    · rw [fields_topSuccessRate d t ts ht]
      simp [srOrZero, hsr]
    · rw [fields_topCount d t ts ht, hc]
      rfl
  · have h1 : round4 (123456/100000 : ℚ) = 12346/10000 := by
      simp only [round4, roundHalfEven]
      rw [show ⌊(123456/100000 : ℚ) * 10000⌋ = 12345 from by norm_num [Int.floor_eq_iff]]
      rw [if_neg (by norm_num), if_pos (by norm_num)]
      norm_num
    have h2 : round4 (8765/10000 : ℚ) = 8765/10000 := by
      simp only [round4, roundHalfEven]
      rw [show ⌊(8765/10000 : ℚ) * 10000⌋ = 8765 from by norm_num [Int.floor_eq_iff]]
      rw [if_pos (by norm_num)]
      norm_num
    simp [summarize_mob, zombieDoc, tacticsOf, tsField, trendVal, srOrZero, h1, h2]

/-- Witness for C1 at the zombie example document. -/
theorem claim_C1_witness :
    fieldOf (summarize_mob zombieDoc) "topAction" = some (Value.str "charge") ∧
    fieldOf (summarize_mob zombieDoc) "topAvgReward" =
      some (Value.rat (round4 (123456/100000))) ∧
    fieldOf (summarize_mob zombieDoc) "topSuccessRate" =
      some (Value.rat (round4 (8765/10000))) ∧
    fieldOf (summarize_mob zombieDoc) "topCount" = some (Value.int 10) :=
  claim_C1.1 zombieDoc
    ⟨some "charge", some (123456/100000), some (some (8765/10000)), some 10⟩
    [] "charge" (123456/100000) (8765/10000) 10 rfl rfl rfl rfl rfl

/-- C2: a document with an empty (or absent) tactics sequence still yields a
full 9-field summary record, with empty topAction, zero topAvgReward and
topSuccessRate, and zero topCount. -/
theorem claim_C2 (d : RawDoc) (h : tacticsOf d = []) :
    (summarize_mob d).length = 9 ∧
    fieldOf (summarize_mob d) "topAction" = some (Value.str "") ∧
    fieldOf (summarize_mob d) "topAvgReward" = some (Value.rat 0) ∧
    fieldOf (summarize_mob d) "topSuccessRate" = some (Value.rat 0) ∧
    fieldOf (summarize_mob d) "topCount" = some (Value.int 0) := by
  obtain ⟨h1, h2, h3, h4⟩ := fields_top_empty d h
  exact ⟨by simp [summarize_mob], h1, h2, h3, h4⟩

/-- Witness for C2 at the all-absent document. -/
theorem claim_C2_witness :
    (summarize_mob emptyDoc).length = 9 ∧
    fieldOf (summarize_mob emptyDoc) "topAction" = some (Value.str "") ∧
    fieldOf (summarize_mob emptyDoc) "topAvgReward" = some (Value.rat 0) ∧
    fieldOf (summarize_mob emptyDoc) "topSuccessRate" = some (Value.rat 0) ∧
    fieldOf (summarize_mob emptyDoc) "topCount" = some (Value.int 0) :=
  claim_C2 emptyDoc rfl

/-- C3: `summarize_mob` preserves a present mobType and a present submissions
count. -/
theorem claim_C3 (d : RawDoc) (m : String) (n : Int) (hm : d.mobType = some m)
    (hn : d.submissions = some n) :
    fieldOf (summarize_mob d) "mobType" = some (Value.str m) ∧
    fieldOf (summarize_mob d) "submissions" = some (Value.int n) := by
  rw [fields_mobType, fields_submissions, hm, hn]
  exact ⟨rfl, rfl⟩

/-- Witness for C3 at the zombie example document. -/
theorem claim_C3_witness :
    fieldOf (summarize_mob zombieDoc) "mobType" = some (Value.str "zombie") ∧
    fieldOf (summarize_mob zombieDoc) "submissions" = some (Value.int 42) :=
  claim_C3 zombieDoc "zombie" 42 rfl rfl

/-- C10: every summary record has exactly the nine fields mobType, submissions,
syncedAt, lastUpdate, topAction, topAvgReward, topSuccessRate, topCount, trend
in that order, and the CSV header written for any non-empty batch of summaries
is exactly that column list. -/
theorem claim_C10 :
    (∀ d : RawDoc, (summarize_mob d).map Prod.fst =
      ["mobType", "submissions", "syncedAt", "lastUpdate", "topAction", "topAvgReward",
       "topSuccessRate", "topCount", "trend"]) ∧
    (∀ (docs : List RawDoc) (out : String), docs ≠ [] →
      csvHeader (write_csv (docs.map summarize_mob) out) =
        some ["mobType", "submissions", "syncedAt", "lastUpdate", "topAction",
          "topAvgReward", "topSuccessRate", "topCount", "trend"]) := by
  refine ⟨summarize_keys, ?_⟩
  intro docs out hne
  rcases docs with _ | ⟨d, ds⟩
  · exact absurd rfl hne
  · simp only [List.map_cons, write_csv, csvHeader, summarize_keys]

/-- Witness for C10 at a one-document batch. -/
theorem claim_C10_witness :
    csvHeader (write_csv ([zombieDoc].map summarize_mob) csvFileName) =
      some ["mobType", "submissions", "syncedAt", "lastUpdate", "topAction",
        "topAvgReward", "topSuccessRate", "topCount", "trend"] :=
  claim_C10.2 [zombieDoc] csvFileName (by simp)

theorem exit_zero_of_finished (r : RunResult) (rows : List (List (String × Value)))
    (skips : List String) (csv : CsvOutcome) (plots : Option PlotResult)
    (h : r.outcome = Outcome.finished rows skips csv plots) : exitCode r = 0 := by
  simp [exitCode, h]

theorem main_finished_csv (args : Args) (env : Env) (rows : List (List (String × Value)))
    (skips : List String) (csv : CsvOutcome) (plots : Option PlotResult)
    (hfin : (main_model args env).outcome = Outcome.finished rows skips csv plots) :
    csv = write_csv rows csvFileName := by
  simp only [main_model] at hfin
  split at hfin
  all_goals try split at hfin
  all_goals try split at hfin
  all_goals simp at hfin
  all_goals obtain ⟨h1, h2, h3, h4⟩ := hfin
  all_goals rw [← h3, h1]

theorem plotLoop_eq (dir : String) (ad : List RawDoc) :
    plotLoop dir ad = ad.filterMap (fun e =>
      if tacticsOf e = [] then none
      else some (dir ++ "/" ++ e.mobType.getD "unknown" ++ "_reward_vs_success.png")) := by
  induction ad with
  | nil => rfl
  | cons e rest ih => by_cases h : tacticsOf e = [] <;> simp [plotLoop, h, ih]

set_option maxRecDepth 8000 in
/-- C4 (code bug): the program converts timestamps through the
double-precision value `ms / 1000.0`, so the claimed millisecond round-trip
fails at in-range inputs: epoch millisecond 16725225600123 (a year-2500
timestamp) renders with fractional part .122999, which truncates back to
millisecond ...122, and the last in-range value 253402300799999 renders as
.998993.  (The zero-or-missing and failure-degrades-to-empty parts of the
claim do hold; the universal round-trip is what the code breaks.) -/
theorem claim_C4 :
    epoch_to_iso 16725225600123 = "2500-01-01T00:00:00.122999+00:00" ∧
    isoToEpochMs (epoch_to_iso 16725225600123) = some 16725225600122 ∧
    epoch_to_iso 253402300799999 = "9999-12-31T23:59:59.998993+00:00" := by
  refine ⟨by decide, by decide, by decide⟩

/-- C5 counterexample: the accepted values of `--source` are not exactly
`remote` and `local` — the value `remote` is rejected (the accepted value
alongside `local` is `github`). -/
theorem claim_C5_counterexample :
    ¬ (∀ s : String, s ∈ sourceOption.choices.getD [] ↔ s = "remote" ∨ s = "local") :=
  fun h => absurd ((h "remote").mpr (Or.inl rfl)) (by decide)

/-- C5 (amended): the CLI exposes a required `--source` option whose accepted
values are exactly `github` and `local`. -/
theorem claim_C5 :
    sourceOption ∈ parse_args_options ∧ sourceOption.required = true ∧
    (∀ s : String, s ∈ sourceOption.choices.getD [] ↔ s = "github" ∨ s = "local") := by
  refine ⟨by decide, rfl, fun s => ?_⟩
  simp [sourceOption]

/-- C6: per-item failures are non-fatal: the loader keeps exactly the
successful items and logs exactly the failing ones, and a local directory with
3 valid tactics files and 1 malformed one yields exactly 3 summary rows, 1
skip log, and exit status 0. -/
theorem claim_C6 :
    (∀ (pre : String) (rs : List (String × Except String RawDoc)),
      (loadLoop pre rs).1.length = (rs.filter (fun p => isOkE p.2)).length ∧
      (loadLoop pre rs).2.length = (rs.filter (fun p => !isOkE p.2)).length) ∧
    (finRows (main_model c6Args c6Env).outcome).map List.length = some 3 ∧
    (finSkips (main_model c6Args c6Env).outcome).map List.length = some 1 ∧
    exitCode (main_model c6Args c6Env) = 0 := by
  refine ⟨?_, by decide, by decide, by decide⟩
  intro pre rs
  induction rs with
  | nil => simp [loadLoop]
  | cons hd tl ih =>
    rcases hd with ⟨n, r⟩
    rcases r with e | d
    · simp [loadLoop, isOkE, List.filter, ih.1, ih.2]
    · simp [loadLoop, isOkE, List.filter, ih.1, ih.2]

/-- C7: a missing flag combination for the chosen source is a usage error with
no I/O performed and a nonzero exit; a failed remote listing or a non-existent
local directory is a fatal error with a nonzero exit. -/
theorem claim_C7 :
    (∀ (args : Args) (env : Env), args.source = "github" →
      args.owner = none ∨ args.repo = none →
      (main_model args env).outcome =
        Outcome.usageError "--owner and --repo are required for source=github" ∧
      (main_model args env).acts = [] ∧ exitCode (main_model args env) = 1) ∧
    (∀ (args : Args) (env : Env), args.source = "local" → args.path = none →
      (main_model args env).outcome =
        Outcome.usageError "--path is required for source=local" ∧
      (main_model args env).acts = [] ∧ exitCode (main_model args env) = 1) ∧
    (∀ (args : Args) (env : Env) (e : String), args.source = "github" →
      truthyS args.owner = true → truthyS args.repo = true →
      env.dirListing = Except.error e →
      (main_model args env).outcome =
        Outcome.fatalError ("Failed to list GitHub directory: " ++ e) ∧
      exitCode (main_model args env) = 1) ∧
    (∀ (args : Args) (env : Env) (p : String), args.source = "local" →
      args.path = some p → p ≠ "" → env.localDirExists = false →
      (main_model args env).outcome = Outcome.fatalError ("Directory not found: " ++ p) ∧
      exitCode (main_model args env) = 1) := by
  refine ⟨?_, ?_, ?_, ?_⟩
  · intro args env hs hmiss
    have hb : (truthyS args.owner && truthyS args.repo) = false := by
      rcases hmiss with h | h <;> simp [truthyS, h]
    refine ⟨?_, ?_, ?_⟩ <;> simp [main_model, hs, hb, exitCode]
  · intro args env hs hp
    refine ⟨?_, ?_, ?_⟩ <;> simp [main_model, hs, hp, truthyS, exitCode]
  · intro args env e hs ho hr hdl
    refine ⟨?_, ?_⟩ <;> simp [main_model, hs, ho, hr, hdl, exitCode]
  · intro args env p hs hp hne hdir
    have hpe : p.isEmpty = false := by
      cases h : p.isEmpty
      · rfl
      · exact absurd ((String.isEmpty_iff p).mp h) hne
    have ht : truthyS (some p) = true := by simp [truthyS, hpe]
    refine ⟨?_, ?_⟩ <;> simp [main_model, hs, hp, ht, hdir, exitCode]

/-- Witness for C7 at concrete argument vectors and a failing environment. -/
theorem claim_C7_witness :
    (main_model c7a failEnv).outcome =
      Outcome.usageError "--owner and --repo are required for source=github" ∧
    (main_model c7a failEnv).acts = [] ∧ exitCode (main_model c7a failEnv) = 1 ∧
    (main_model c7b failEnv).outcome =
      Outcome.usageError "--path is required for source=local" ∧
    (main_model c7c failEnv).outcome =
      Outcome.fatalError ("Failed to list GitHub directory: " ++ "HTTP 403") ∧
    (main_model c7d failEnv).outcome =
      Outcome.fatalError ("Directory not found: " ++ "missing") ∧
    exitCode (main_model c7d failEnv) = 1 := by
  obtain ⟨h1, h2, h3, h4⟩ := claim_C7
  have w1 := h1 c7a failEnv rfl (Or.inl rfl)
  have w2 := h2 c7b failEnv rfl rfl
  have w3 := h3 c7c failEnv "HTTP 403" rfl rfl rfl rfl
  have w4 := h4 c7d failEnv "missing" rfl rfl (by decide) rfl
  exact ⟨w1.1, w1.2.1, w1.2.2, w2.1, w3.1, w4.1, w4.2⟩

/-- C8: an empty summary list makes the CSV writer print a diagnostic and write
nothing, and a run that completes with zero rows still exits 0 with that
diagnostic. -/
theorem claim_C8 :
    (∀ out : String, write_csv [] out = CsvOutcome.diagnostic "No data to write.") ∧
    (∀ (args : Args) (env : Env) (rows : List (List (String × Value)))
      (skips : List String) (csv : CsvOutcome) (plots : Option PlotResult),
      (main_model args env).outcome = Outcome.finished rows skips csv plots → rows = [] →
      csv = CsvOutcome.diagnostic "No data to write." ∧
      exitCode (main_model args env) = 0) := by
  refine ⟨fun out => rfl, ?_⟩
  intro args env rows skips csv plots hfin hrows
  refine ⟨?_, exit_zero_of_finished _ _ _ _ _ hfin⟩
  have hc := main_finished_csv args env rows skips csv plots hfin
  rw [hc, hrows]
  rfl

/-- Witness for C8 at a local run over a directory with no tactics files. -/
theorem claim_C8_witness :
    write_csv [] csvFileName = CsvOutcome.diagnostic "No data to write." ∧
    exitCode (main_model c6Args c8Env) = 0 :=
  ⟨claim_C8.1 csvFileName,
   (claim_C8.2 c6Args c8Env [] []
     (CsvOutcome.diagnostic "No data to write.") none rfl rfl).2⟩

/-- C9: with plotting enabled, each document with a non-empty tactics list
yields one image named `<mobType>_reward_vs_success.png` in the (created)
output directory, documents with empty tactics are skipped, and a missing
charting library degrades the generator to a diagnostic no-op. -/
theorem claim_C9 :
    (∀ (ad : List RawDoc) (dir : String),
      generate_plots ad dir false = PlotResult.unavailable
        "matplotlib not available. Install with pip install matplotlib or omit --plots.") ∧
    (∀ (ad : List RawDoc) (dir : String),
      generate_plots ad dir true = PlotResult.generated true
        (ad.filterMap (fun e =>
          if tacticsOf e = [] then none
          else some (dir ++ "/" ++ e.mobType.getD "unknown" ++
            "_reward_vs_success.png")))) := by
  refine ⟨fun ad dir => rfl, fun ad dir => ?_⟩
  simp [generate_plots, plotLoop_eq]
